import Mathlib

/-!
Shallow embedding of the MacroBiscuit indicator query service
(`src/app/main.py`): three database tables (indicator catalog, indicator
metadata, observations), the three request handlers `get_series`,
`list_indicators` and `refresh`, and the per-request connection lifecycle
(`get_conn` / `finally: conn.close()`).

Modelling conventions:
* calendar dates are day ordinals (`Nat`); only their ordering matters;
* SQL `numeric` observation values are `Int`; the handler's `float(...)`
  conversion is value-preserving at this level of abstraction (no claim
  touches numeric rounding);
* SQL `NULL`able columns are `Option`s; JSON output values are `JVal`
  (scalars) and `JField` (scalar or one nested object), and Python dicts
  are association lists in construction order;
* SQL `ORDER BY` is modelled as a sort by the corresponding comparator
  (text columns compare lexicographically by code point);
* the psycopg2 connection and the three `cur.execute` calls can each fail;
  fault-injection booleans select those paths, and a `ConnLog` records
  whether the request opened and closed its connection and how many
  queries it executed.
-/

/-- A row of `public.indicators` as consumed by the service
(only `id` and `title` are ever selected). -/
structure IndicatorRow where
  id : String
  title : String
  deriving DecidableEq, Repr

/-- A row of `public.indicator_metadata`; every non-key column is nullable. -/
structure MetaRow where
  id : String
  category : Option String
  description : Option String
  frequency : Option String
  unit_display : Option String
  unit : Option String
  source : Option String
  source_url : Option String
  methodology_url : Option String
  release_schedule : Option String
  country : Option String
  display_priority : Option Int
  decimal_places : Option Int
  deriving DecidableEq, Repr

/-- A row of `public.observations`. -/
structure ObsRow where
  series_id : String
  date : Nat
  value : Int
  deriving DecidableEq, Repr

/-- The external database state: the three tables the service reads. -/
structure DB where
  indicators : List IndicatorRow
  indicator_metadata : List MetaRow
  observations : List ObsRow
  deriving DecidableEq, Repr

/-- A scalar JSON value appearing in a response. -/
inductive JVal where
  | null : JVal
  | bool : Bool → JVal
  | str : String → JVal
  | int : Int → JVal
  deriving DecidableEq, Repr

/-- A JSON field value: a scalar or one nested object of scalars
(the nesting depth the service actually produces). -/
inductive JField where
  | scalar : JVal → JField
  | object : List (String × JVal) → JField
  deriving DecidableEq, Repr

/-- JSON rendering of a nullable text column. -/
def jstr : Option String → JVal
  | none => .null
  | some s => .str s

/-- JSON rendering of a nullable integer column. -/
def jint : Option Int → JVal
  | none => .null
  | some n => .int n

/-- Python `d.get(k)` on a scalar dict: the stored value, or `None`
(JSON `null`) when the key is absent. -/
def dictGetV (d : List (String × JVal)) (k : String) : JVal :=
  match d.find? (fun kv => kv.fst == k) with
  | some kv => kv.snd
  | none => .null

/-- Lexicographic code-point comparison of character lists (the text
ordering behind SQL `ORDER BY` on `id` columns). -/
def strLeAux : List Char → List Char → Bool
  | [], _ => true
  | _ :: _, [] => false
  | a :: as, b :: bs =>
    if a.toNat < b.toNat then true
    else if b.toNat < a.toNat then false
    else strLeAux as bs

/-- Lexicographic code-point comparison of strings. -/
def strLe (a b : String) : Bool :=
  strLeAux a.data b.data

/-- `SELECT title FROM public.indicators WHERE id = %s` + `fetchone`. -/
def q_title (db : DB) (sid : String) : Option String :=
  (db.indicators.find? (fun r => r.id == sid)).map IndicatorRow.title

/-- `SELECT ... FROM public.indicator_metadata WHERE id = %s` + `fetchone`. -/
def q_meta (db : DB) (sid : String) : Option MetaRow :=
  db.indicator_metadata.find? (fun r => r.id == sid)

/-- The `ORDER BY date ASC` comparison on observation rows. -/
def obsRel (a b : ObsRow) : Prop :=
  a.date ≤ b.date

instance : DecidableRel obsRel :=
  fun a b => inferInstanceAs (Decidable (a.date ≤ b.date))

instance : IsTotal ObsRow obsRel :=
  ⟨fun a b => Nat.le_total a.date b.date⟩

instance : IsTrans ObsRow obsRel :=
  ⟨fun _ _ _ h h2 => Nat.le_trans h h2⟩

/-- `SELECT date, value FROM public.observations WHERE series_id = %s
ORDER BY date ASC` + `fetchall`. -/
def q_obs (db : DB) (sid : String) : List ObsRow :=
  List.insertionSort obsRel (db.observations.filter (fun r => r.series_id == sid))

/-- One row of the `LEFT JOIN` in `list_indicators`: an indicator together
with its optional metadata row. -/
structure JoinRow where
  ind : IndicatorRow
  meta : Option MetaRow
  deriving DecidableEq, Repr

/-- The join rows one catalog indicator contributes to the left join:
one row per matching metadata row, or a single metadata-less row when
none matches. -/
def joinRowsFor (db : DB) (i : IndicatorRow) : List JoinRow :=
  match db.indicator_metadata.filter (fun m => m.id == i.id) with
  | [] => [{ ind := i, meta := none }]
  | ms => ms.map (fun m => { ind := i, meta := some m })

/-- The left join of `public.indicators` with `public.indicator_metadata`
on `id`: every catalog row appears, paired with each matching metadata row,
or with no metadata when none matches. -/
def leftJoin (db : DB) : List JoinRow :=
  db.indicators.flatMap (joinRowsFor db)

/-- The `m.display_priority` sort key of a join row (`NULL` on a join miss
or a null column). -/
def JoinRow.prio (r : JoinRow) : Option Int :=
  r.meta.bind MetaRow.display_priority

/-- Strict comparison of priority keys under `NULLS LAST`. -/
def prioLt : Option Int → Option Int → Bool
  | some x, some y => decide (x < y)
  | some _, none => true
  | none, _ => false

/-- The `ORDER BY m.display_priority NULLS LAST, i.id` comparison. -/
def joinLe (a b : JoinRow) : Bool :=
  prioLt a.prio b.prio || (a.prio == b.prio && strLe a.ind.id b.ind.id)

/-- `joinLe` as a relation, for sorting. -/
def joinRel (a b : JoinRow) : Prop :=
  joinLe a b = true

instance : DecidableRel joinRel :=
  fun a b => inferInstanceAs (Decidable (joinLe a b = true))

/-- The `list_indicators` query result: the left join in `ORDER BY` order. -/
def sortedJoin (db : DB) : List JoinRow :=
  List.insertionSort joinRel (leftJoin db)

/-- One element of the `full` / `recent` observation lists:
`{"date": ..., "value": float(...)}`. -/
structure Obs where
  date : Nat
  value : Int
  deriving DecidableEq, Repr

/-- Python `dict(meta)`: the twelve selected metadata columns, in `SELECT`
order. -/
def metaDict (m : MetaRow) : List (String × JVal) :=
  [("category", jstr m.category),
   ("description", jstr m.description),
   ("frequency", jstr m.frequency),
   ("unit_display", jstr m.unit_display),
   ("unit", jstr m.unit),
   ("source", jstr m.source),
   ("source_url", jstr m.source_url),
   ("methodology_url", jstr m.methodology_url),
   ("release_schedule", jstr m.release_schedule),
   ("country", jstr m.country),
   ("display_priority", jint m.display_priority),
   ("decimal_places", jint m.decimal_places)]

/-- `metadata = dict(meta) if meta else {}`. -/
def seriesMetaDict (db : DB) (sid : String) : List (String × JVal) :=
  match q_meta db sid with
  | some m => metaDict m
  | none => []

/-- The `full` list: every observation row of the series, in query order,
mapped to `{"date": r["date"], "value": float(r["value"])}`. -/
def seriesFull (db : DB) (sid : String) : List Obs :=
  (q_obs db sid).map (fun r => { date := r.date, value := r.value })

/-- The composite `get_series` response object. -/
structure SeriesResp where
  id : String
  title : String
  source : JVal
  unit : JVal
  latest : Option Obs
  recent : List Obs
  full : List Obs
  metadata : List (String × JVal)
  deriving DecidableEq, Repr

/-- The response `get_series` builds once the title row exists:
`latest = full[-1] if full else None` and
`recent = full[-120:] if len(full) > 120 else full`. -/
def seriesResp (db : DB) (sid : String) (title : String) : SeriesResp :=
  let metadata := seriesMetaDict db sid
  let full := seriesFull db sid
  { id := sid
    title := title
    source := dictGetV metadata "source"
    unit := dictGetV metadata "unit"
    latest := full.getLast?
    recent := if full.length > 120 then full.drop (full.length - 120) else full
    full := full
    metadata := metadata }

/-- One entry of the `list_indicators` response, as the handler's dict
literal builds it: `source` and `unit` at top level, eight metadata
columns nested under `"metadata"`. -/
def entryJson (r : JoinRow) : List (String × JField) :=
  [("id", .scalar (.str r.ind.id)),
   ("title", .scalar (.str r.ind.title)),
   ("source", .scalar (jstr (r.meta.bind MetaRow.source))),
   ("unit", .scalar (jstr (r.meta.bind MetaRow.unit))),
   ("metadata", .object
     [("category", jstr (r.meta.bind MetaRow.category)),
      ("description", jstr (r.meta.bind MetaRow.description)),
      ("frequency", jstr (r.meta.bind MetaRow.frequency)),
      ("unit_display", jstr (r.meta.bind MetaRow.unit_display)),
      ("release_schedule", jstr (r.meta.bind MetaRow.release_schedule)),
      ("country", jstr (r.meta.bind MetaRow.country)),
      ("display_priority", jint (r.meta.bind MetaRow.display_priority)),
      ("decimal_places", jint (r.meta.bind MetaRow.decimal_places))])]

/-- The nested metadata object of a join row with no metadata row:
every column is `null`. -/
def nullMetaObj : List (String × JVal) :=
  [("category", .null),
   ("description", .null),
   ("frequency", .null),
   ("unit_display", .null),
   ("release_schedule", .null),
   ("country", .null),
   ("display_priority", .null),
   ("decimal_places", .null)]

/-- The fixed acknowledgement object the `refresh` stub returns. -/
def refreshAck : List (String × JVal) :=
  [("ok", .bool true),
   ("mode", .str "manual"),
   ("message", .str "Update data directly in Supabase (public.observations).")]

/-- Process environment: `DATABASE_URL = os.getenv("DATABASE_URL")`. -/
structure Env where
  database_url : Option String
  deriving DecidableEq, Repr

/-- Python truthiness test `not DATABASE_URL`: true when the variable is
unset or set to the empty string. -/
def envFalsy : Option String → Bool
  | none => true
  | some s => s.isEmpty

/-- How a request ends: a value, an `HTTPException`, a `RuntimeError`
from `get_conn`, or a database-driver error. -/
inductive Outcome (α : Type) where
  | ok : α → Outcome α
  | httpError : Nat → String → Outcome α
  | runtimeError : String → Outcome α
  | dbError : String → Outcome α
  deriving DecidableEq, Repr

/-- Connection lifecycle record of one request. -/
structure ConnLog where
  opened : Bool
  closed : Bool
  queries : Nat
  deriving DecidableEq, Repr

/-- The observable effect of one request: its outcome, the database state
afterwards, and its connection log. -/
structure RunResult (α : Type) where
  result : Outcome α
  db : DB
  log : ConnLog
  deriving DecidableEq, Repr

/-- HTTP method a route is invoked with (`refresh` is registered for
both GET and POST). -/
inductive Method where
  | get : Method
  | post : Method
  deriving DecidableEq, Repr

/-- The `get_series` handler with fault injection: `connectFail` makes
`psycopg2.connect` raise, `q1 q2 q3` make the three `cur.execute` calls
raise. `get_conn` raises before any connection when `DATABASE_URL` is
falsy; once the connection exists, the `finally` block closes it on every
exit path. -/
def get_series_run (env : Env) (connectFail : Bool) (db : DB) (sid : String)
    (q1 q2 q3 : Bool) : RunResult SeriesResp :=
  if envFalsy env.database_url then
    { result := .runtimeError "DATABASE_URL env var not set", db := db,
      log := { opened := false, closed := false, queries := 0 } }
  else if connectFail then
    { result := .dbError "connection failed", db := db,
      log := { opened := false, closed := false, queries := 0 } }
  else if q1 then
    { result := .dbError "query failed", db := db,
      log := { opened := true, closed := true, queries := 1 } }
  else
    match q_title db sid with
    | none =>
      { result := .httpError 404 "Indicator not found", db := db,
        log := { opened := true, closed := true, queries := 1 } }
    | some title =>
      if q2 then
        { result := .dbError "query failed", db := db,
          log := { opened := true, closed := true, queries := 2 } }
      else if q3 then
        { result := .dbError "query failed", db := db,
          log := { opened := true, closed := true, queries := 3 } }
      else
        { result := .ok (seriesResp db sid title), db := db,
          log := { opened := true, closed := true, queries := 3 } }

/-- The `list_indicators` handler with fault injection: one query, the
same connection lifecycle. -/
def list_indicators_run (env : Env) (connectFail : Bool) (db : DB)
    (q1 : Bool) : RunResult (List (List (String × JField))) :=
  if envFalsy env.database_url then
    { result := .runtimeError "DATABASE_URL env var not set", db := db,
      log := { opened := false, closed := false, queries := 0 } }
  else if connectFail then
    { result := .dbError "connection failed", db := db,
      log := { opened := false, closed := false, queries := 0 } }
  else if q1 then
    { result := .dbError "query failed", db := db,
      log := { opened := true, closed := true, queries := 1 } }
  else
    { result := .ok ((sortedJoin db).map entryJson), db := db,
      log := { opened := true, closed := true, queries := 1 } }

/-- The `refresh` handler: a pure stub. It ignores the method, the id,
the environment and the database, touches no connection, and returns the
fixed acknowledgement. -/
def refresh_run (_env : Env) (db : DB) (_m : Method) (_sid : String) :
    RunResult (List (String × JVal)) :=
  { result := .ok refreshAck, db := db,
    log := { opened := false, closed := false, queries := 0 } }

/-- A configured environment (the deployed service has `DATABASE_URL`
set to a non-empty connection string). -/
def okEnv : Env :=
  { database_url := some "postgresql://host/db" }

/-- `get_series` under normal conditions: configured environment, no
connection or query faults. -/
def get_series (db : DB) (sid : String) : RunResult SeriesResp :=
  get_series_run okEnv false db sid false false false

/-- `list_indicators` under normal conditions. -/
def list_indicators (db : DB) : RunResult (List (List (String × JField))) :=
  list_indicators_run okEnv false db false

/-- A metadata row for the `cpi` indicator. -/
def cpiMeta : MetaRow :=
  { id := "cpi", category := some "prices", description := none,
    frequency := some "monthly", unit_display := some "Index",
    unit := some "index", source := some "BLS", source_url := none,
    methodology_url := none, release_schedule := none, country := some "US",
    display_priority := some 1, decimal_places := some 1 }

/-- A concrete database: `cpi` with metadata and three observations,
`gdp` in the catalog with no metadata row and no observations. -/
def sampleDb : DB :=
  { indicators := [{ id := "cpi", title := "CPI" }, { id := "gdp", title := "GDP" }],
    indicator_metadata := [cpiMeta],
    observations :=
      [{ series_id := "cpi", date := 2, value := 101 },
       { series_id := "cpi", date := 1, value := 100 },
       { series_id := "cpi", date := 3, value := 102 }] }

/-- The join row the sample database produces for `gdp`: a left-join miss. -/
def sampleGdpRow : JoinRow :=
  { ind := { id := "gdp", title := "GDP" }, meta := none }

/-- `strLeAux` is total. -/
theorem strLeAux_total (as : List Char) :
    ∀ bs, strLeAux as bs = true ∨ strLeAux bs as = true := by
  induction as with
  | nil => intro bs; left; rfl
  | cons a as ih =>
    intro bs
    cases bs with
    | nil => right; rfl
    | cons b bs =>
      by_cases h1 : a.toNat < b.toNat
      · left; simp [strLeAux, h1]
      · by_cases h2 : b.toNat < a.toNat
        · right; simp [strLeAux, h1, h2]
        · rcases ih bs with h | h
          · left; simpa [strLeAux, h1, h2] using h
          · right; simpa [strLeAux, h1, h2] using h

/-- Unfolding of `strLeAux` on two nonempty lists. -/
theorem strLeAux_cons (a b : Char) (as bs : List Char) :
    strLeAux (a :: as) (b :: bs) =
      (decide (a.toNat < b.toNat) || (a.toNat == b.toNat && strLeAux as bs)) := by
  by_cases h1 : a.toNat < b.toNat
  · simp [strLeAux, h1]
  · by_cases h2 : b.toNat < a.toNat
    · have h3 : (a.toNat == b.toNat) = false := by
        simp only [beq_eq_false_iff_ne, ne_eq]; omega
      simp [strLeAux, h1, h2, h3]
    · have he : a.toNat = b.toNat := by omega
      simp [strLeAux, h1, h2, he]

/-- `strLeAux` is transitive. -/
theorem strLeAux_trans (as : List Char) :
    ∀ bs cs, strLeAux as bs = true → strLeAux bs cs = true →
      strLeAux as cs = true := by
  induction as with
  | nil => intro bs cs _ _; rfl
  | cons a as ih =>
    intro bs cs hab hbc
    cases bs with
    | nil => simp [strLeAux] at hab
    | cons b bs =>
      cases cs with
      | nil => simp [strLeAux] at hbc
      | cons c cs =>
        rw [strLeAux_cons] at hab hbc ⊢
        simp only [Bool.or_eq_true, Bool.and_eq_true, decide_eq_true_eq,
          beq_iff_eq] at hab hbc ⊢
        rcases hab with hab | ⟨he1, hr1⟩
        · rcases hbc with hbc | ⟨he2, hr2⟩
          · exact Or.inl (by omega)
          · exact Or.inl (by omega)
        · rcases hbc with hbc | ⟨he2, hr2⟩
          · exact Or.inl (by omega)
          · exact Or.inr ⟨by omega, ih bs cs hr1 hr2⟩

/-- `strLe` is total. -/
theorem strLe_total (a b : String) : strLe a b = true ∨ strLe b a = true :=
  strLeAux_total a.data b.data

/-- `strLe` is transitive. -/
theorem strLe_trans (a b c : String) (hab : strLe a b = true)
    (hbc : strLe b c = true) : strLe a c = true :=
  strLeAux_trans a.data b.data c.data hab hbc

/-- `prioLt` is a trichotomy with `BEq` equality on priority keys. -/
theorem prioLt_trichotomy (p q : Option Int) :
    prioLt p q = true ∨ (p == q) = true ∨ prioLt q p = true := by
  cases p <;> cases q <;> simp [prioLt] <;> omega

/-- `joinRel` is total. -/
instance : IsTotal JoinRow joinRel := by
  refine ⟨fun a b => ?_⟩
  unfold joinRel joinLe
  rcases prioLt_trichotomy a.prio b.prio with h | h | h
  · left; simp [h]
  · have he : a.prio = b.prio := eq_of_beq h
    rcases strLe_total a.ind.id b.ind.id with hs | hs
    · left; simp [h, hs]
    · right; simp [beq_of_eq he.symm, hs]
  · right; simp [h]

/-- `joinRel` is transitive. -/
instance : IsTrans JoinRow joinRel := by
  refine ⟨fun a b c hab hbc => ?_⟩
  unfold joinRel joinLe at hab hbc ⊢
  have hlt : ∀ p q r : Option Int,
      prioLt p q = true → prioLt q r = true → prioLt p r = true := by
    intro p q r h1 h2
    cases p <;> cases q <;> cases r <;> simp_all [prioLt] <;> omega
  have heqlt : ∀ p q r : Option Int,
      (p == q) = true → prioLt q r = true → prioLt p r = true := by
    intro p q r h1 h2
    cases p <;> cases q <;> cases r <;> simp_all [prioLt]
  have hlteq : ∀ p q r : Option Int,
      prioLt p q = true → (q == r) = true → prioLt p r = true := by
    intro p q r h1 h2
    cases p <;> cases q <;> cases r <;> simp_all [prioLt]
  simp only [Bool.or_eq_true, Bool.and_eq_true] at hab hbc ⊢
  rcases hab with hab | ⟨habe, habs⟩
  · rcases hbc with hbc | ⟨hbce, hbcs⟩
    · exact Or.inl (hlt _ _ _ hab hbc)
    · exact Or.inl (hlteq _ _ _ hab hbce)
  · rcases hbc with hbc | ⟨hbce, hbcs⟩
    · exact Or.inl (heqlt _ _ _ habe hbc)
    · refine Or.inr ⟨?_, strLe_trans _ _ _ habs hbcs⟩
      cases h1 : a.prio <;> cases h2 : b.prio <;> cases h3 : c.prio <;>
        simp_all

/-- The configured environment is not falsy. -/
theorem envFalsy_okEnv : envFalsy okEnv.database_url = false := rfl

/-- Under normal conditions, `get_series` on a known id returns the
composite response and a balanced connection log. -/
theorem get_series_result_ok (db : DB) (sid : String) (t : String)
    (hq : q_title db sid = some t) :
    get_series db sid =
      { result := .ok (seriesResp db sid t), db := db,
        log := { opened := true, closed := true, queries := 3 } } := by
  unfold get_series get_series_run
  rw [envFalsy_okEnv, hq]
  rfl

/-- The `recent` window is the last `min 120 (length full)` elements. -/
theorem recent_eq_drop (l : List Obs) :
    (if l.length > 120 then l.drop (l.length - 120) else l) =
      l.drop (l.length - min 120 l.length) := by
  by_cases h : l.length > 120
  · have : min 120 l.length = 120 := by omega
    simp [h, this]
  · have h0 : l.length - min 120 l.length = 0 := by omega
    simp [h, h0]

/-- The `recent` window is a suffix of `full`. -/
theorem recent_suffix (l : List Obs) :
    List.IsSuffix (if l.length > 120 then l.drop (l.length - 120) else l) l := by
  by_cases h : l.length > 120
  · simpa [h] using List.drop_suffix (l.length - 120) l
  · simpa [h] using List.suffix_refl l

/-- `full` is in ascending date order. -/
theorem seriesFull_pairwise (db : DB) (sid : String) :
    List.Pairwise (fun a b : Obs => a.date ≤ b.date) (seriesFull db sid) := by
  have h := List.sorted_insertionSort obsRel
    (db.observations.filter (fun r => r.series_id == sid))
  exact List.Pairwise.map _ (fun a b hab => hab) h

/-- C1: for every known indicator id, `get_series` succeeds and its
`recent` list is exactly the last `min 120 (length full)` elements of
`full`; `recent` is a suffix of `full`, both are in ascending date order,
and `recent = full` whenever `full` has at most 120 elements. -/
theorem C1_recent_window (db : DB) (sid : String)
    (h : (q_title db sid).isSome = true) :
    ∃ resp : SeriesResp, (get_series db sid).result = .ok resp ∧
      resp.recent = resp.full.drop (resp.full.length - min 120 resp.full.length) ∧
      List.IsSuffix resp.recent resp.full ∧
      List.Pairwise (fun a b : Obs => a.date ≤ b.date) resp.full ∧
      List.Pairwise (fun a b : Obs => a.date ≤ b.date) resp.recent ∧
      (resp.full.length ≤ 120 → resp.recent = resp.full) := by
  obtain ⟨t, ht⟩ := Option.isSome_iff_exists.mp h
  have hfull : (seriesResp db sid t).full = seriesFull db sid := rfl
  have hrec : (seriesResp db sid t).recent =
      (if (seriesFull db sid).length > 120 then
        (seriesFull db sid).drop ((seriesFull db sid).length - 120)
      else seriesFull db sid) := rfl
  refine ⟨seriesResp db sid t, ?_, ?_, ?_, ?_, ?_, ?_⟩
  · rw [get_series_result_ok db sid t ht]
  · rw [hrec, hfull, recent_eq_drop]
  · rw [hrec, hfull]; exact recent_suffix (seriesFull db sid)
  · rw [hfull]; exact seriesFull_pairwise db sid
  · rw [hrec]
    exact List.Pairwise.sublist (recent_suffix (seriesFull db sid)).sublist
      (seriesFull_pairwise db sid)
  · intro hlen
    rw [hrec, hfull]
    rw [hfull] at hlen
    rw [if_neg (by omega)]

/-- Witness for C1 at the sample database and indicator `cpi`. -/
theorem C1_recent_window_witness :
    (q_title sampleDb "cpi").isSome = true ∧
    (∃ resp : SeriesResp, (get_series sampleDb "cpi").result = .ok resp ∧
      resp.recent = resp.full.drop (resp.full.length - min 120 resp.full.length) ∧
      List.IsSuffix resp.recent resp.full ∧
      List.Pairwise (fun a b : Obs => a.date ≤ b.date) resp.full ∧
      List.Pairwise (fun a b : Obs => a.date ≤ b.date) resp.recent ∧
      (resp.full.length ≤ 120 → resp.recent = resp.full)) :=
  ⟨by decide, C1_recent_window sampleDb "cpi" (by decide)⟩

/-- C2: for every known indicator id, `latest` equals the last element of
`full` and is absent exactly when `full` is empty; a catalog indicator
with zero observations still succeeds, with empty `full` and `recent` and
no `latest`. -/
theorem C2_latest_iff (db : DB) (sid : String)
    (h : (q_title db sid).isSome = true) :
    ∃ resp : SeriesResp, (get_series db sid).result = .ok resp ∧
      resp.latest = resp.full.getLast? ∧
      (resp.latest = none ↔ resp.full = []) ∧
      ((∀ o ∈ db.observations, o.series_id ≠ sid) →
        resp.full = [] ∧ resp.recent = [] ∧ resp.latest = none) := by
  obtain ⟨t, ht⟩ := Option.isSome_iff_exists.mp h
  refine ⟨seriesResp db sid t, ?_, rfl, ?_, ?_⟩
  · rw [get_series_result_ok db sid t ht]
  · show (seriesFull db sid).getLast? = none ↔ seriesFull db sid = []
    exact List.getLast?_eq_none_iff
  · intro hobs
    have hfil : db.observations.filter (fun r => r.series_id == sid) = [] := by
      rw [List.filter_eq_nil_iff]
      intro a ha
      simp only [beq_iff_eq]
      exact hobs a ha
    have hfull : seriesFull db sid = [] := by
      simp [seriesFull, q_obs, hfil]
    refine ⟨hfull, ?_, ?_⟩
    · show (if (seriesFull db sid).length > 120 then
          (seriesFull db sid).drop ((seriesFull db sid).length - 120)
        else seriesFull db sid) = []
      simp [hfull]
    · show (seriesFull db sid).getLast? = none
      simp [hfull]

/-- Witness for C2 at the sample database and indicator `gdp`, which has a
catalog row and zero observations. -/
theorem C2_latest_iff_witness :
    (q_title sampleDb "gdp").isSome = true ∧
    (∃ resp : SeriesResp, (get_series sampleDb "gdp").result = .ok resp ∧
      resp.latest = resp.full.getLast? ∧
      (resp.latest = none ↔ resp.full = []) ∧
      ((∀ o ∈ sampleDb.observations, o.series_id ≠ "gdp") →
        resp.full = [] ∧ resp.recent = [] ∧ resp.latest = none)) :=
  ⟨by decide, C2_latest_iff sampleDb "gdp" (by decide)⟩

/-- C3: an id with no catalog row yields exactly the 404 outcome with
message "Indicator not found" and no response object; an id with a
catalog row never takes that branch and yields a full response. -/
theorem C3_not_found (db : DB) (sid : String) :
    (q_title db sid = none →
      (get_series db sid).result = .httpError 404 "Indicator not found") ∧
    ((q_title db sid).isSome = true →
      ∃ resp : SeriesResp, (get_series db sid).result = .ok resp) := by
  constructor
  · intro h
    unfold get_series get_series_run
    rw [envFalsy_okEnv, h]
    rfl
  · intro h
    obtain ⟨t, ht⟩ := Option.isSome_iff_exists.mp h
    exact ⟨seriesResp db sid t, by rw [get_series_result_ok db sid t ht]⟩

/-- Witness for C3 at the sample database and the unknown id `oil`. -/
theorem C3_not_found_witness :
    q_title sampleDb "oil" = none ∧
    (get_series sampleDb "oil").result = .httpError 404 "Indicator not found" :=
  ⟨by decide, (C3_not_found sampleDb "oil").1 (by decide)⟩

/-- C4: for a known indicator id, a missing metadata row is not an error:
the request succeeds with an empty metadata object and null top-level
`source` and `unit`; when the metadata row exists, the top-level `source`
and `unit` are that row's values. -/
theorem C4_metadata_merge (db : DB) (sid : String)
    (h : (q_title db sid).isSome = true) :
    ∃ resp : SeriesResp, (get_series db sid).result = .ok resp ∧
      (q_meta db sid = none →
        resp.metadata = [] ∧ resp.source = .null ∧ resp.unit = .null) ∧
      (∀ m : MetaRow, q_meta db sid = some m →
        resp.metadata = metaDict m ∧
        resp.source = jstr m.source ∧ resp.unit = jstr m.unit) := by
  obtain ⟨t, ht⟩ := Option.isSome_iff_exists.mp h
  refine ⟨seriesResp db sid t, ?_, ?_, ?_⟩
  · rw [get_series_result_ok db sid t ht]
  · intro hm
    have hsm : seriesMetaDict db sid = [] := by
      simp [seriesMetaDict, hm]
    refine ⟨hsm, ?_, ?_⟩
    · show dictGetV (seriesMetaDict db sid) "source" = .null
      rw [hsm]
      rfl
    · show dictGetV (seriesMetaDict db sid) "unit" = .null
      rw [hsm]
      rfl
  · intro m hm
    have hsm : seriesMetaDict db sid = metaDict m := by
      simp [seriesMetaDict, hm]
    refine ⟨hsm, ?_, ?_⟩
    · show dictGetV (seriesMetaDict db sid) "source" = jstr m.source
      rw [hsm]
      rfl
    · show dictGetV (seriesMetaDict db sid) "unit" = jstr m.unit
      rw [hsm]
      rfl

/-- Witness for C4 at the sample database and indicator `gdp`, which has
no metadata row. -/
theorem C4_metadata_merge_witness :
    (q_title sampleDb "gdp").isSome = true ∧
    (∃ resp : SeriesResp, (get_series sampleDb "gdp").result = .ok resp ∧
      (q_meta sampleDb "gdp" = none →
        resp.metadata = [] ∧ resp.source = .null ∧ resp.unit = .null) ∧
      (∀ m : MetaRow, q_meta sampleDb "gdp" = some m →
        resp.metadata = metaDict m ∧
        resp.source = jstr m.source ∧ resp.unit = jstr m.unit)) :=
  ⟨by decide, C4_metadata_merge sampleDb "gdp" (by decide)⟩

/-- When the metadata ids are distinct, at most one metadata row matches
any given id. -/
theorem filter_meta_len_le_one (metas : List MetaRow)
    (hm : (metas.map MetaRow.id).Nodup) (x : String) :
    (metas.filter (fun m => m.id == x)).length ≤ 1 := by
  induction metas with
  | nil => simp
  | cons m ms ih =>
    rw [List.map_cons, List.nodup_cons] at hm
    by_cases h : (m.id == x) = true
    · have hx : m.id = x := eq_of_beq h
      have hnil : ms.filter (fun m2 => m2.id == x) = [] := by
        rw [List.filter_eq_nil_iff]
        intro a ha hax
        exact hm.1 (List.mem_map.mpr ⟨a, ha, (eq_of_beq hax).trans hx.symm⟩)
      simp [List.filter_cons, h, hnil]
    · simp only [List.filter_cons, h, if_neg]
      simpa using ih hm.2

/-- Mapping a left inverse over a flat map of singleton producers is the
identity. -/
theorem flatMap_map_singleton {α β : Type} (l : List α) (f : α → List β)
    (g : β → α) (h : ∀ a ∈ l, (f a).map g = [a]) :
    (l.flatMap f).map g = l := by
  induction l with
  | nil => rfl
  | cons a l ih =>
    rw [List.flatMap_cons, List.map_append, h a (by simp),
      ih (fun x hx => h x (by simp [hx]))]
    rfl

/-- When the metadata ids are distinct, each indicator contributes exactly
one join row, carrying that indicator. -/
theorem joinRowsFor_map_ind (db : DB)
    (hm : (db.indicator_metadata.map MetaRow.id).Nodup) (i : IndicatorRow) :
    (joinRowsFor db i).map JoinRow.ind = [i] := by
  have hlen := filter_meta_len_le_one db.indicator_metadata hm i.id
  unfold joinRowsFor
  cases hfil : db.indicator_metadata.filter (fun m => m.id == i.id) with
  | nil => rfl
  | cons m ms =>
    rw [hfil] at hlen
    cases ms with
    | nil => rfl
    | cons m2 ms2 => simp at hlen

/-- When the metadata ids are distinct, the left join lists the catalog
indicators exactly, in catalog order. -/
theorem leftJoin_map_ind (db : DB)
    (hm : (db.indicator_metadata.map MetaRow.id).Nodup) :
    (leftJoin db).map JoinRow.ind = db.indicators := by
  unfold leftJoin
  exact flatMap_map_singleton db.indicators (joinRowsFor db) JoinRow.ind
    (fun i _ => joinRowsFor_map_ind db hm i)

/-- Under normal conditions, `list_indicators` returns the sorted join,
entry-shaped, with a balanced connection log. -/
theorem list_indicators_result_ok (db : DB) :
    list_indicators db =
      { result := .ok ((sortedJoin db).map entryJson), db := db,
        log := { opened := true, closed := true, queries := 1 } } := by
  unfold list_indicators list_indicators_run
  rw [envFalsy_okEnv]
  rfl

/-- C5: when metadata ids are distinct, `list_indicators` returns one
entry per catalog indicator (the full catalog, as a permutation of the
catalog rows), sorted by `display_priority` ascending with nulls last and
ties broken by id ascending; an indicator with no metadata row still
appears, with every nested metadata field null. -/
theorem C5_catalog_sorted (db : DB)
    (hm : (db.indicator_metadata.map MetaRow.id).Nodup) :
    (list_indicators db).result = .ok ((sortedJoin db).map entryJson) ∧
    List.Pairwise (fun a b => joinLe a b = true) (sortedJoin db) ∧
    List.Perm ((sortedJoin db).map JoinRow.ind) db.indicators ∧
    (∀ r ∈ sortedJoin db, r.meta = none →
      entryJson r =
        [("id", .scalar (.str r.ind.id)),
         ("title", .scalar (.str r.ind.title)),
         ("source", .scalar .null),
         ("unit", .scalar .null),
         ("metadata", .object nullMetaObj)]) := by
  refine ⟨by rw [list_indicators_result_ok], ?_, ?_, ?_⟩
  · exact List.sorted_insertionSort joinRel (leftJoin db)
  · have hp : List.Perm ((sortedJoin db).map JoinRow.ind)
        ((leftJoin db).map JoinRow.ind) :=
      (List.perm_insertionSort joinRel (leftJoin db)).map JoinRow.ind
    rw [leftJoin_map_ind db hm] at hp
    exact hp
  · intro r _ hmeta
    simp [entryJson, hmeta, nullMetaObj, jstr, jint]

/-- Witness for C5 at the sample database. -/
theorem C5_catalog_sorted_witness :
    (sampleDb.indicator_metadata.map MetaRow.id).Nodup ∧
    ((list_indicators sampleDb).result = .ok ((sortedJoin sampleDb).map entryJson) ∧
    List.Pairwise (fun a b => joinLe a b = true) (sortedJoin sampleDb) ∧
    List.Perm ((sortedJoin sampleDb).map JoinRow.ind) sampleDb.indicators ∧
    (∀ r ∈ sortedJoin sampleDb, r.meta = none →
      entryJson r =
        [("id", .scalar (.str r.ind.id)),
         ("title", .scalar (.str r.ind.title)),
         ("source", .scalar .null),
         ("unit", .scalar .null),
         ("metadata", .object nullMetaObj)])) :=
  ⟨by decide, C5_catalog_sorted sampleDb (by decide)⟩

/-- C6: `refresh`, whether invoked via GET or POST, on any id and in any
environment, performs no database access, leaves the database unchanged,
and returns the fixed manual-mode acknowledgement. -/
theorem C6_refresh_stub (env : Env) (db : DB) (m : Method) (sid : String) :
    refresh_run env db m sid =
      { result := .ok refreshAck, db := db,
        log := { opened := false, closed := false, queries := 0 } } :=
  rfl

/-- C7: when `DATABASE_URL` is absent, `get_series` and `list_indicators`
fail with the configuration error before opening a connection or
executing any query, regardless of faults. -/
theorem C7_config_fail_fast (env : Env) (h : env.database_url = none)
    (cf : Bool) (db : DB) (sid : String) (q1 q2 q3 qa : Bool) :
    ((get_series_run env cf db sid q1 q2 q3).result =
        .runtimeError "DATABASE_URL env var not set" ∧
      (get_series_run env cf db sid q1 q2 q3).log.opened = false ∧
      (get_series_run env cf db sid q1 q2 q3).log.queries = 0) ∧
    ((list_indicators_run env cf db qa).result =
        .runtimeError "DATABASE_URL env var not set" ∧
      (list_indicators_run env cf db qa).log.opened = false ∧
      (list_indicators_run env cf db qa).log.queries = 0) := by
  have hf : envFalsy env.database_url = true := by rw [h]; rfl
  unfold get_series_run list_indicators_run
  rw [hf]
  exact ⟨⟨rfl, rfl, rfl⟩, ⟨rfl, rfl, rfl⟩⟩

/-- Witness for C7 at the empty environment and the sample database. -/
theorem C7_config_fail_fast_witness :
    (Env.mk none).database_url = none ∧
    (((get_series_run (Env.mk none) false sampleDb "cpi" false false false).result =
        .runtimeError "DATABASE_URL env var not set" ∧
      (get_series_run (Env.mk none) false sampleDb "cpi" false false false).log.opened = false ∧
      (get_series_run (Env.mk none) false sampleDb "cpi" false false false).log.queries = 0) ∧
    ((list_indicators_run (Env.mk none) false sampleDb false).result =
        .runtimeError "DATABASE_URL env var not set" ∧
      (list_indicators_run (Env.mk none) false sampleDb false).log.opened = false ∧
      (list_indicators_run (Env.mk none) false sampleDb false).log.queries = 0)) :=
  ⟨rfl, C7_config_fail_fast (Env.mk none) rfl false sampleDb "cpi" false false false false⟩

/-- C8: on every execution of `get_series` or `list_indicators` that
opens a database connection — including the 404 path and every
query-fault path — the connection is closed by the time the request
ends. -/
theorem C8_conn_released (env : Env) (cf : Bool) (db : DB) (sid : String)
    (q1 q2 q3 qa : Bool) :
    ((get_series_run env cf db sid q1 q2 q3).log.opened = true →
      (get_series_run env cf db sid q1 q2 q3).log.closed = true) ∧
    ((list_indicators_run env cf db qa).log.opened = true →
      (list_indicators_run env cf db qa).log.closed = true) := by
  constructor
  · unfold get_series_run
    repeat' split
    all_goals simp
  · unfold list_indicators_run
    repeat' split
    all_goals simp

/-- Witness for C8: a 404 execution and a plain listing both close the
connection they opened. -/
theorem C8_conn_released_witness :
    (get_series_run okEnv false sampleDb "oil" false false false).log.closed = true ∧
    (list_indicators_run okEnv false sampleDb false).log.closed = true :=
  ⟨(C8_conn_released okEnv false sampleDb "oil" false false false false).1 (by decide),
   (C8_conn_released okEnv false sampleDb "oil" false false false false).2 (by decide)⟩

/-- C9: `refresh` never touches the database connection: for every id,
method and environment — including an unset `DATABASE_URL` — it succeeds
with the fixed acknowledgement and never yields a 404, a configuration
error or a database error. -/
theorem C9_refresh_no_conn (env : Env) (db : DB) (m : Method) (sid : String) :
    (refresh_run env db m sid).result = .ok refreshAck ∧
    (refresh_run env db m sid).log.opened = false ∧
    (refresh_run env db m sid).log.closed = false ∧
    (refresh_run env db m sid).log.queries = 0 ∧
    (∀ code msg, (refresh_run env db m sid).result ≠ .httpError code msg) ∧
    (∀ msg, (refresh_run env db m sid).result ≠ .runtimeError msg) ∧
    (∀ msg, (refresh_run env db m sid).result ≠ .dbError msg) :=
  ⟨rfl, rfl, rfl, rfl,
   fun _ _ h => Outcome.noConfusion h,
   fun _ h => Outcome.noConfusion h,
   fun _ h => Outcome.noConfusion h⟩

/-- C10: every `list_indicators` entry carries scalar `source` and `unit`
fields at top level and one nested metadata object whose keys are exactly
the eight listed columns — never `source_url` or `methodology_url`, and
not `source` or `unit` either. -/
theorem C10_entry_shape (db : DB) (entry : List (String × JField))
    (h : ∃ es, (list_indicators db).result = .ok es ∧ entry ∈ es) :
    (∃ v, ("source", JField.scalar v) ∈ entry) ∧
    (∃ v, ("unit", JField.scalar v) ∈ entry) ∧
    (∃ mv, ("metadata", JField.object mv) ∈ entry ∧
      mv.map Prod.fst =
        ["category", "description", "frequency", "unit_display",
         "release_schedule", "country", "display_priority", "decimal_places"] ∧
      "source_url" ∉ mv.map Prod.fst ∧
      "methodology_url" ∉ mv.map Prod.fst ∧
      "source" ∉ mv.map Prod.fst ∧
      "unit" ∉ mv.map Prod.fst) := by
  obtain ⟨es, hes, hmem⟩ := h
  rw [list_indicators_result_ok] at hes
  injection hes with hes
  subst hes
  obtain ⟨r, _, rfl⟩ := List.mem_map.mp hmem
  refine ⟨⟨jstr (r.meta.bind MetaRow.source), ?_⟩,
    ⟨jstr (r.meta.bind MetaRow.unit), ?_⟩, ?_⟩
  · exact .tail _ (.tail _ (.head _))
  · exact .tail _ (.tail _ (.tail _ (.head _)))
  have hkeys : List.map Prod.fst
      [("category", jstr (r.meta.bind MetaRow.category)),
       ("description", jstr (r.meta.bind MetaRow.description)),
       ("frequency", jstr (r.meta.bind MetaRow.frequency)),
       ("unit_display", jstr (r.meta.bind MetaRow.unit_display)),
       ("release_schedule", jstr (r.meta.bind MetaRow.release_schedule)),
       ("country", jstr (r.meta.bind MetaRow.country)),
       ("display_priority", jint (r.meta.bind MetaRow.display_priority)),
       ("decimal_places", jint (r.meta.bind MetaRow.decimal_places))] =
      ["category", "description", "frequency", "unit_display",
       "release_schedule", "country", "display_priority", "decimal_places"] := rfl
  refine ⟨_, ?_, hkeys, ?_, ?_, ?_, ?_⟩
  · exact .tail _ (.tail _ (.tail _ (.tail _ (.head _))))
  all_goals rw [hkeys]
  all_goals decide

/-- Witness for C10 at the sample database: the entry of the
metadata-less indicator `gdp`. -/
theorem C10_entry_shape_witness :
    (∃ es, (list_indicators sampleDb).result = .ok es ∧
      entryJson sampleGdpRow ∈ es) ∧
    ((∃ v, ("source", JField.scalar v) ∈ entryJson sampleGdpRow) ∧
     (∃ v, ("unit", JField.scalar v) ∈ entryJson sampleGdpRow) ∧
     (∃ mv, ("metadata", JField.object mv) ∈ entryJson sampleGdpRow ∧
       mv.map Prod.fst =
         ["category", "description", "frequency", "unit_display",
          "release_schedule", "country", "display_priority", "decimal_places"] ∧
       "source_url" ∉ mv.map Prod.fst ∧
       "methodology_url" ∉ mv.map Prod.fst ∧
       "source" ∉ mv.map Prod.fst ∧
       "unit" ∉ mv.map Prod.fst)) := by
  have hyp : ∃ es, (list_indicators sampleDb).result = .ok es ∧
      entryJson sampleGdpRow ∈ es :=
    ⟨(sortedJoin sampleDb).map entryJson, by rw [list_indicators_result_ok],
      by decide⟩
  exact ⟨hyp, C10_entry_shape sampleDb (entryJson sampleGdpRow) hyp⟩
